import Mathlib

/-!
Shallow embedding of the hangar-py versioned-storage core, covering the
backend selection heuristics (`src/hangar/backends/selection.py`), the
integrity verifier (`src/hangar/diagnostics/integrity.py`) and the
reader / writer checkout objects (`src/hangar/checkout.py`).

Python values are modelled as follows: numpy prototype arrays keep only
their shape and itemsize (the only attributes the embedded code reads);
Python exceptions become the `PyError` sum; dictionaries become
association lists with string keys.  Repository state touched by the
checkout layer (lmdb environments, staged payload files, the writer
lock) is collected in an explicit `RepoState` record threaded through
the operations.
-/

set_option linter.unusedVariables false

deriving instance DecidableEq for Except

namespace Hangar

/-- Python's `str.startswith`, on the character lists of the two
strings (the character-list view is what the kernel can evaluate). -/
def str_starts_with (s pre : String) : Bool :=
  pre.data.isPrefixOf s.data

/-- The Python exception kinds raised by the embedded code. -/
inductive PyError where
  | valueError (msg : String)
  | keyError (key : String)
  | runtimeError (msg : String)
  | permissionError (msg : String)
  | attributeError (msg : String)
deriving DecidableEq, Repr

/-- A numpy prototype array, reduced to the attributes the embedded code
reads: `shape` (list of dimension extents) and `itemsize` (bytes per
element). -/
structure NdArray where
  shape : List Nat
  itemsize : Nat
deriving DecidableEq, Repr

/-- `np.ndarray.ndim`: number of dimensions. -/
def NdArray.ndim (a : NdArray) : Nat := a.shape.length

/-- `np.ndarray.size`: total number of elements (product of the shape). -/
def NdArray.size (a : NdArray) : Nat := a.shape.prod

/-- `np.ndarray.nbytes`: total bytes consumed by the elements. -/
def NdArray.nbytes (a : NdArray) : Nat := a.size * a.itemsize

/-- First-match lookup in an association list with string keys, the
behaviour of a Python dict / lmdb `get` in the embedding. -/
def lookupStr {α : Type} (l : List (String × α)) (k : String) : Option α :=
  match l.find? (fun kv => kv.1 == k) with
  | some kv => some kv.2
  | none => none

/-- Keys of `BACKEND_ACCESSOR_MAP` in `backends/selection.py`: the known
backend format codes. -/
def BACKEND_ACCESSOR_MAP : List String := ["00", "01", "10", "30", "50"]

/-- `backend_from_heuristics` from `backends/selection.py`. -/
def backend_from_heuristics (array : NdArray) (variable_shape : Bool) : String :=
  if array.ndim = 1 ∧ array.size < 400 then "10"
  else if array.ndim = 1 ∧ array.size ≤ 10000000 then "00"
  else if variable_shape = false then "01"
  else "00"

/-- The hdf5 option dictionaries built inside
`backend_opts_from_heuristics` (keys `complib`, `complevel`,
`shuffle`). -/
structure HDF5Opts where
  complib : String
  complevel : Option Nat
  shuffle : Option String
deriving DecidableEq, Repr

/-- Backend option dictionaries returned by
`backend_opts_from_heuristics`: the empty dict for backends `10` and
`50`, an hdf5 option dict for `00` and `01`. -/
inductive Opts where
  | emptyOpts
  | hdf5 (o : HDF5Opts)
deriving DecidableEq, Repr

/-- `stdopts['default']` for backend `00`. -/
def HDF5_00_stdopts_default : HDF5Opts := ⟨"blosc:zstd", some 3, none⟩

/-- `stdopts['backup']` for backend `00`. -/
def HDF5_00_stdopts_backup : HDF5Opts := ⟨"lzf", none, some "byte"⟩

/-- `stdopts['default']` for backend `01`. -/
def HDF5_01_stdopts_default : HDF5Opts := ⟨"blosc:lz4hc", some 5, some "byte"⟩

/-- `stdopts['backup']` for backend `01`. -/
def HDF5_01_stdopts_backup : HDF5Opts := ⟨"lzf", none, some "byte"⟩

/-- `backend_opts_from_heuristics` from `backends/selection.py`.  The
availability of the blosc filter in the linked hdf5 library
(`h5py.h5z.filter_avail(32001)`) is an input of the model,
`hdf5BloscAvail`.  As in the source, `variable_shape` is accepted but
unused. -/
def backend_opts_from_heuristics (backend : String) (array : NdArray)
    (variable_shape : Bool) (hdf5BloscAvail : Bool) : Except PyError Opts :=
  if backend = "10" then .ok .emptyOpts
  else if backend = "00" then
    let opts := if hdf5BloscAvail then HDF5_00_stdopts_default else HDF5_00_stdopts_backup
    let opts := if str_starts_with opts.complib "blosc:" ∧ array.nbytes < 16
                then HDF5_00_stdopts_backup else opts
    .ok (.hdf5 opts)
  else if backend = "01" then
    let opts := if hdf5BloscAvail then HDF5_01_stdopts_default else HDF5_01_stdopts_backup
    let opts := if str_starts_with opts.complib "blosc:" ∧ array.nbytes < 16
                then HDF5_01_stdopts_backup else opts
    .ok (.hdf5 opts)
  else if backend = "50" then .ok .emptyOpts
  else .error (.valueError "Should not have been able to not select backend")

/-- The user-supplied `backend_opts` argument of
`parse_user_backend_opts`.  A Python dict argument is modelled with its
required `backend` entry split out and the remaining (string-valued)
items as an association list; `otherArg` stands for a value of any type
other than `str`, `dict` or `None`. -/
inductive UserBackendArg where
  | strArg (code : String)
  | dictArg (backend : String) (rest : List (String × String))
  | noneArg
  | otherArg
deriving DecidableEq, Repr

/-- The `opts` component of the returned `BackendOpts` named tuple:
either the dict inferred by `backend_opts_from_heuristics` or the
explicit user dict (minus its `backend` key). -/
inductive ParsedOpts where
  | inferred (o : Opts)
  | explicit (d : List (String × String))
deriving DecidableEq, Repr

/-- The `BackendOpts` named tuple of `backends/selection.py`. -/
structure BackendOpts where
  backend : String
  opts : ParsedOpts
deriving DecidableEq, Repr

/-- `parse_user_backend_opts` from `backends/selection.py`. -/
def parse_user_backend_opts (backend_opts : UserBackendArg) (prototype : NdArray)
    (variable_shape : Bool) (hdf5BloscAvail : Bool) : Except PyError BackendOpts :=
  match backend_opts with
  | .strArg code =>
      if code ∉ BACKEND_ACCESSOR_MAP then
        .error (.valueError ("Backend specifier: " ++ code ++ " not known"))
      else
        match backend_opts_from_heuristics code prototype variable_shape hdf5BloscAvail with
        | .ok opts => .ok ⟨code, .inferred opts⟩
        | .error e => .error e
  | .dictArg backend rest =>
      if backend ∉ BACKEND_ACCESSOR_MAP then
        .error (.valueError ("Backend specifier: " ++ backend ++ " not known"))
      else
        let opts := rest.filter (fun kv => kv.1 != "backend")
        match lookupStr opts "complib" with
        | some complib =>
            if (backend = "00" ∨ backend = "01") ∧
                str_starts_with complib "blosc:" = true ∧ prototype.nbytes < 16 then
              .error (.valueError ("Blosc compression for backend " ++ backend ++
                " is not supported for arrays less than 16 bytes in size."))
            else .ok ⟨backend, .explicit opts⟩
        | none => .ok ⟨backend, .explicit opts⟩
  | .noneArg =>
      let backend := backend_from_heuristics prototype variable_shape
      match backend_opts_from_heuristics backend prototype variable_shape hdf5BloscAvail with
      | .ok opts => .ok ⟨backend, .inferred opts⟩
      | .error e => .error e
  | .otherArg => .error (.valueError "Backend opts value is invalid")

/- ------------------- diagnostics/integrity.py ------------------------- -/

/-- A decoded data-hash record value, as consumed by
`_verify_array_integrity`: the backend format code, the `islocal` flag,
and an opaque backend-private locator (`payload`) standing for the rest
of the spec fields. -/
structure ArraySpec where
  backend : String
  islocal : Bool
  payload : String
deriving DecidableEq, Repr

/-- `hash_type_code_from_digest` of the hash machine.  Modelled from the
spec: a digest is an "opaque hex string prefixed by a one-character
type-code identifying the digest scheme; the type-code is recoverable
from the digest" — the code is the first character.  (The hash-machine
module itself is not part of the provided sources.) -/
def hash_type_code_from_digest (digest : String) : String :=
  String.mk (digest.data.take 1)

/-- The corruption message raised by `_verify_array_integrity`, naming
the expected and the recomputed digest. -/
def arrayCorruptionMsg (digest calc_digest : String) : String :=
  "Data corruption detected for array. Expected digest " ++ digest ++
  ". Found digest " ++ calc_digest

/-- The non-fatal warning emitted by `_verify_array_integrity` when
remote-only references were skipped. -/
def remoteWarnMsg (nremote narrays : Nat) : String :=
  "Can not verify integrity of partially fetched array data references. " ++
  "Did not verify " ++ toString nremote ++ " of " ++ toString narrays ++ " arrays"

/-- The `for digest, spec in array_kvs` loop of
`_verify_array_integrity`.  `read_data` stands for
`bes[spec.backend].read_data` and `array_hash_digest` for
`hashmachine.array_hash_digest` (both outside the provided sources, so
they are inputs of the model).  The accumulator carries the list of
backends opened so far (`bes`) and the remote-reference count
(`nremote`); the result is the loop outcome together with the final
accumulator. -/
def verifyArraysLoop (read_data : ArraySpec → String)
    (array_hash_digest : String → String → String) :
    List (String × ArraySpec) → List String → Nat →
      Except PyError Unit × List String × Nat
  | [], bes, nremote => (.ok (), bes, nremote)
  | (digest, spec) :: rest, bes, nremote =>
    if spec.backend ∉ bes ∧ spec.backend ∉ BACKEND_ACCESSOR_MAP then
      (.error (.keyError spec.backend), bes, nremote)
    else
      let bes' := if spec.backend ∈ bes then bes else bes ++ [spec.backend]
      if spec.islocal = false then
        verifyArraysLoop read_data array_hash_digest rest bes' (nremote + 1)
      else
        let calc_digest := array_hash_digest (read_data spec) (hash_type_code_from_digest digest)
        if calc_digest ≠ digest then
          (.error (.runtimeError (arrayCorruptionMsg digest calc_digest)), bes', nremote)
        else
          verifyArraysLoop read_data array_hash_digest rest bes' nremote

/-- Observable outcome of `_verify_array_integrity`: the raised error
(if any), the warnings emitted, and the backend accessors that were
opened and that were closed by the `finally` block. -/
structure VerifyArraysResult where
  outcome : Except PyError Unit
  warnings : List String
  opened : List String
  closed : List String
deriving DecidableEq, Repr

/-- `_verify_array_integrity` from `diagnostics/integrity.py`: run the
verification loop over all data-hash entries starting from no open
backends, emit the remote warning only when the loop completed with a
positive remote count, and close every opened backend in the `finally`
block on every exit path. -/
def _verify_array_integrity (read_data : ArraySpec → String)
    (array_hash_digest : String → String → String)
    (entries : List (String × ArraySpec)) : VerifyArraysResult :=
  let narrays := entries.length
  let r := verifyArraysLoop read_data array_hash_digest entries [] 0
  let warnings :=
    match r.1 with
    | .ok _ => if r.2.2 > 0 then [remoteWarnMsg r.2.2 narrays] else []
    | .error _ => []
  ⟨r.1, warnings, r.2.1, r.2.1⟩

/-- A decoded commit-parent record
(`parsing.commit_parent_raw_val_from_db_val(...).ancestor_spec`): the
master and dev ancestor digests, the empty string meaning "none". -/
structure CommitParentRec where
  master_ancestor : String
  dev_ancestor : String
deriving DecidableEq, Repr

/-- The `for cmt in all_commits` loop of
`_verify_commit_tree_integrity`.  `recs` is the refs db's
commit-parent table (digest of commit → decoded parent record) and
`initialCmt` the loop variable remembering the parent-less commit seen
so far. -/
def verifyCommitTreeLoop (recs : List (String × CommitParentRec))
    (all_commits : List String) :
    List String → Option String → Except PyError Unit
  | [], _ => .ok ()
  | cmt :: rest, initialCmt =>
    match lookupStr recs cmt with
    | none =>
        .error (.runtimeError ("Data corruption detected for parent ref of commit " ++
          cmt ++ ". Parent ref not recorded in refs db."))
    | some parents =>
        if parents.master_ancestor ≠ "" ∧ parents.master_ancestor ∉ all_commits then
          .error (.runtimeError ("Data corruption detected in commit tree. Commit " ++
            cmt ++ " references non-existing master ancestor " ++ parents.master_ancestor))
        else if parents.dev_ancestor ≠ "" ∧ parents.dev_ancestor ∉ all_commits then
          .error (.runtimeError ("Data corruption detected in commit tree. Commit " ++
            cmt ++ " references non-existing dev ancestor " ++ parents.dev_ancestor))
        else if parents.master_ancestor = "" ∧ parents.dev_ancestor = "" then
          match initialCmt with
          | some first =>
              .error (.runtimeError ("Commit tree integrity compromised. Multiple initial " ++
                "commits found. First " ++ first ++ ", second " ++ cmt))
          | none => verifyCommitTreeLoop recs all_commits rest (some cmt)
        else verifyCommitTreeLoop recs all_commits rest initialCmt

/-- `_verify_commit_tree_integrity` from `diagnostics/integrity.py`,
over the commit set `all_commits` and the commit-parent table `recs`. -/
def _verify_commit_tree_integrity (recs : List (String × CommitParentRec))
    (all_commits : List String) : Except PyError Unit :=
  verifyCommitTreeLoop recs all_commits all_commits none

/-- Whether commit `c` has a recorded parent record with both ancestor
fields empty (an "initial" commit, for the at-most-one audit). -/
def isParentless (recs : List (String × CommitParentRec)) (c : String) : Bool :=
  match lookupStr recs c with
  | some p => p.master_ancestor == "" && p.dev_ancestor == ""
  | none => false

/- --------------------------- checkout.py ------------------------------ -/

/-- The repository state read and written by the checkout layer: branch
heads and the staging-base branch name (`branchenv`), the staged refs
(`stageenv`), the commit refs snapshots (`refenv`), the data-hash db
(`hashenv`), the staged-hash db (`stagehashenv`), the staged backend
payload files on disk, and the writer lock (`none` models the "free"
sentinel). -/
structure RepoState where
  branchHeads : List (String × String)
  stagingBranch : String
  stageRefs : List (String × String)
  commitRefs : List (String × List (String × String))
  hashenv : List (String × String)
  stagehashenv : List String
  stagedFiles : List String
  writerLock : Option String
deriving DecidableEq, Repr

/-- Update (or insert) a key in an association list. -/
def updateAssoc {α : Type} : List (String × α) → String → α → List (String × α)
  | [], k, v => [(k, v)]
  | kv :: rest, k, v => if kv.1 = k then (k, v) :: rest else kv :: updateAssoc rest k v

/-- Modelled from the spec: `heads.get_branch_head_commit` — the branch
map is `name -> commit-digest` (`records.heads` is not part of the
provided sources). -/
def get_branch_head_commit (s : RepoState) (branch_name : String) : Option String :=
  lookupStr s.branchHeads branch_name

/-- Modelled from the spec: `heads.get_staging_branch_head` — the
identity of the "staging base branch". -/
def get_staging_branch_head (s : RepoState) : String :=
  s.stagingBranch

/-- Modelled from the spec: `heads.set_staging_branch_head` — update
the staging base pointer. -/
def set_staging_branch_head (s : RepoState) (branch_name : String) : RepoState :=
  { s with stagingBranch := branch_name }

/-- Modelled from the spec: `diff.staging_area_status` — "Status is
CLEAN iff stageenv's computed digest equals the staging base branch's
head commit's refs digest, else DIRTY"; digest equality of the two refs
snapshots is modelled as equality of their contents
(`src/hangar/diff.py` is not part of the provided sources). -/
def staging_area_status (s : RepoState) : String :=
  match get_branch_head_commit s s.stagingBranch with
  | none => "DIRTY"
  | some headCmt =>
    match lookupStr s.commitRefs headCmt with
    | none => "DIRTY"
    | some refs => if s.stageRefs = refs then "CLEAN" else "DIRTY"

/-- Modelled from the spec: `heads.acquire_writer_lock` — the lock
record holds either the "free" sentinel or a token; a writer "mints a
token, installs it if free, and carries it; all write ops verify the
carried token matches the stored token", failing with the lock-held
`PermissionError` otherwise. -/
def acquire_writer_lock (s : RepoState) (lock : String) : Except PyError RepoState :=
  match s.writerLock with
  | none => .ok { s with writerLock := some lock }
  | some held =>
      if held = lock then .ok s
      else .error (.permissionError "Cannot acquire the writer lock. It is held by another writer.")

/-- Modelled from the spec: `heads.release_writer_lock` — "release
requires the same token"; on success the lock returns to the free
sentinel. -/
def release_writer_lock (s : RepoState) (lock : String) : Except PyError RepoState :=
  match s.writerLock with
  | none => .ok s
  | some held =>
      if held = lock then .ok { s with writerLock := none }
      else .error (.permissionError "Writer lock release requires the matching token.")

/-- Modelled from the spec: `commiting.replace_staging_area_with_commit`
— replace the stage contents with the named commit's refs snapshot. -/
def replace_staging_area_with_commit (s : RepoState) (commit_hash : String) : RepoState :=
  { s with stageRefs := (lookupStr s.commitRefs commit_hash).getD [] }

/-- Digest of a new commit, modelled from the spec: "computes a digest
over (parent(s), message, ordered ref snapshot)" with a one-character
type-code prefix; an injective-by-construction string encoding stands
in for the hash. -/
def commitDigestOf (parent message : String) (refs : List (String × String)) : String :=
  "a" ++ parent ++ ":" ++ message ++ ":" ++
    String.intercalate ";" (refs.map (fun kv => kv.1 ++ "=" ++ kv.2))

/-- Modelled from the spec: `commiting.commit_records` — write the new
commit's refs snapshot atomically and advance the staging-base branch
head to the new digest. -/
def commit_records (s : RepoState) (message : String) : Except PyError (String × RepoState) :=
  match get_branch_head_commit s s.stagingBranch with
  | none => .error (.runtimeError "staging base branch head missing")
  | some parent =>
      let digest := commitDigestOf parent message s.stageRefs
      .ok (digest,
        { s with commitRefs := (digest, s.stageRefs) :: s.commitRefs,
                 branchHeads := updateAssoc s.branchHeads s.stagingBranch digest })

/-- Modelled from the spec: `hashs.remove_unused_dataset_hdf_files` —
"remove unused staged payload files (garbage collect any backend file
no longer referenced after the last write)"; a staged file is kept iff
it is still referenced from the staged-hash db. -/
def remove_unused_dataset_hdf_files (s : RepoState) : RepoState :=
  { s with stagedFiles := s.stagedFiles.filter (fun f => s.stagehashenv.contains f) }

/-- Modelled from the spec: `hashs.clear_stage_hash_records` — "clear
staged hash records". -/
def clear_stage_hash_records (s : RepoState) : RepoState :=
  { s with stagehashenv := [] }

/-- Modelled from the spec: `hashs.remove_stage_hash_records_from_hashenv`
— "remove staged hash records from the hashenv (payloads that existed
only in stage)". -/
def remove_stage_hash_records_from_hashenv (s : RepoState) : RepoState :=
  { s with hashenv := s.hashenv.filter (fun kv => !(s.stagehashenv.contains kv.1)) }

/-- The `_datasets` / `_metadata` attributes of a checkout object:
`pyNone` is the `None` placeholder set in `__init__` before `__setup`
completes, `facades` a live `Datasets` facade (whose backend file
handles may be open), and `deleted` the state after `del`. -/
inductive FacadeAttr where
  | pyNone
  | facades (handlesOpen : Bool)
  | deleted
deriving DecidableEq, Repr

/-- The `WriterCheckout` object of `checkout.py`: its branch name, the
minted writer-lock token, whether the `_writer_lock` attribute is still
present (it is removed by `close`), and the facade attribute state. -/
structure WriterCheckout where
  branch_name : String
  writer_lock : String
  hasLockAttr : Bool
  datasets : FacadeAttr
deriving DecidableEq, Repr

/-- The closed-checkout message of `__acquire_writer_lock` and
`__verify_checkout_alive`. -/
def closedCheckoutMsg : String :=
  "Unable to operate on past checkout objects which have been closed. " ++
  "No operation occured. Please use a new checkout."

/-- `WriterCheckout.__acquire_writer_lock`: raise the closed
`PermissionError` when the `_writer_lock` attribute is gone, otherwise
re-verify the lock in `branchenv`; on either failure the `_datasets` /
`_metadata` attributes are deleted.  Returns the op outcome together
with the repository state and checkout object. -/
def writer_verify_lock (s : RepoState) (c : WriterCheckout) :
    Except PyError Unit × RepoState × WriterCheckout :=
  if c.hasLockAttr = false then
    (.error (.permissionError closedCheckoutMsg), s, { c with datasets := .deleted })
  else
    match acquire_writer_lock s c.writer_lock with
    | .ok s' => (.ok (), s', c)
    | .error e => (.error e, s, { c with datasets := .deleted })

/-- The `for dsetHandle in self._datasets.values(): dsetHandle._close()`
loop: closes the backend handles of a live facade, but raises
`AttributeError` when `_datasets` is the `None` placeholder or has been
deleted. -/
def close_dataset_handles (c : WriterCheckout) : Except PyError WriterCheckout :=
  match c.datasets with
  | .facades _ => .ok { c with datasets := .facades false }
  | .pyNone => .error (.attributeError "NoneType object has no attribute values")
  | .deleted => .error (.attributeError "WriterCheckout object has no attribute _datasets")

/-- `WriterCheckout.close`: re-verify the lock, release it, close all
dataset handles, then delete the `_datasets`, `_metadata` and
`_writer_lock` attributes. -/
def writer_close (s : RepoState) (c : WriterCheckout) :
    Except PyError Unit × RepoState × WriterCheckout :=
  match writer_verify_lock s c with
  | (.error e, s', c') => (.error e, s', c')
  | (.ok _, s1, c1) =>
    match release_writer_lock s1 c1.writer_lock with
    | .error e => (.error e, s1, c1)
    | .ok s2 =>
      match close_dataset_handles c1 with
      | .ok c2 => (.ok (), s2, { c2 with datasets := .deleted, hasLockAttr := false })
      | .error e => (.error e, s2, c1)

/-- The dirty-switch message of `WriterCheckout.__setup`. -/
def dirtySwitchMsg (branch_name current_head : String) : String :=
  "Unable to check out branch: " ++ branch_name ++ " for writing as the staging " ++
  "area has uncommitted changes on branch: " ++ current_head ++ "."

/-- `WriterCheckout.__setup`: verify the lock, then compare the staging
status and base branch against the requested branch; on a clean switch
replace the stage with the requested branch head and repoint the
staging base; on a dirty switch call `close()` and only then raise the
dirty-switch `ValueError`; finally (re)build the facades. -/
def writer_setup (s : RepoState) (c : WriterCheckout) :
    Except PyError Unit × RepoState × WriterCheckout :=
  match writer_verify_lock s c with
  | (.error e, s', c') => (.error e, s', c')
  | (.ok _, s1, c1) =>
    let staged_status := staging_area_status s1
    let current_head := get_staging_branch_head s1
    if staged_status = "DIRTY" then
      if current_head ≠ c1.branch_name then
        match writer_close s1 c1 with
        | (.ok _, s2, c2) =>
            (.error (.valueError (dirtySwitchMsg c1.branch_name current_head)), s2, c2)
        | (.error e, s2, c2) => (.error e, s2, c2)
      else
        (.ok (), s1, { c1 with datasets := .facades true })
    else
      if current_head ≠ c1.branch_name then
        match get_branch_head_commit s1 c1.branch_name with
        | none => (.error (.valueError ("branch not found: " ++ c1.branch_name)), s1, c1)
        | some commit_hash =>
            let s2 := replace_staging_area_with_commit s1 commit_hash
            let s3 := set_staging_branch_head s2 c1.branch_name
            (.ok (), s3, { c1 with datasets := .facades true })
      else
        (.ok (), s1, { c1 with datasets := .facades true })

/-- `WriterCheckout.__init__`: record the branch name, mint the writer
lock token (`token`), set the facade attributes to `None`, and run
`__setup`. -/
def writer_checkout_init (s : RepoState) (branch_name token : String) :
    Except PyError Unit × RepoState × WriterCheckout :=
  writer_setup s ⟨branch_name, token, true, .pyNone⟩

/-- The empty-commit message of `WriterCheckout.commit`. -/
def emptyCommitMsg : String :=
  "HANGAR RUNTIME ERROR: No changes made in staging area. Cannot commit."

/-- The empty-reset message of `WriterCheckout.reset_staging_area`. -/
def emptyResetMsg : String :=
  "HANGAR RUNTIME ERROR: No changes made in staging area. No reset necessary."

/-- `WriterCheckout.commit`: verify the lock; reject with the
empty-commit `RuntimeError` when the stage is CLEAN; otherwise close the
dataset handles, garbage-collect unused staged files, emit the commit,
clear the staged hash records and re-run `__setup`. -/
def writer_commit (s : RepoState) (c : WriterCheckout) (message : String) :
    Except PyError String × RepoState × WriterCheckout :=
  match writer_verify_lock s c with
  | (.error e, s', c') => (.error e, s', c')
  | (.ok _, s1, c1) =>
    if staging_area_status s1 = "CLEAN" then
      (.error (.runtimeError emptyCommitMsg), s1, c1)
    else
      match close_dataset_handles c1 with
      | .error e => (.error e, s1, c1)
      | .ok c2 =>
        let s2 := remove_unused_dataset_hdf_files s1
        match commit_records s2 message with
        | .error e => (.error e, s2, c2)
        | .ok (commit_hash, s3) =>
          let s4 := clear_stage_hash_records s3
          match writer_setup s4 c2 with
          | (.ok _, s5, c5) => (.ok commit_hash, s5, c5)
          | (.error e, s5, c5) => (.error e, s5, c5)

/-- `WriterCheckout.reset_staging_area`: verify the lock; reject with
the empty-commit `RuntimeError` when the stage is CLEAN; otherwise close
the dataset handles, drop the staged hash records from the hash db,
clear the staged-hash db, garbage-collect staged files, replace the
stage with the branch head's refs and re-run `__setup`. -/
def writer_reset_staging_area (s : RepoState) (c : WriterCheckout) :
    Except PyError String × RepoState × WriterCheckout :=
  match writer_verify_lock s c with
  | (.error e, s', c') => (.error e, s', c')
  | (.ok _, s1, c1) =>
    if staging_area_status s1 = "CLEAN" then
      (.error (.runtimeError emptyResetMsg), s1, c1)
    else
      match close_dataset_handles c1 with
      | .error e => (.error e, s1, c1)
      | .ok c2 =>
        let s2 := remove_stage_hash_records_from_hashenv s1
        let s3 := clear_stage_hash_records s2
        let s4 := remove_unused_dataset_hdf_files s3
        let branch_head := get_staging_branch_head s4
        match get_branch_head_commit s4 branch_head with
        | none => (.error (.runtimeError "staging base branch head missing"), s4, c2)
        | some head_commit =>
          let s5 := replace_staging_area_with_commit s4 head_commit
          match writer_setup s5 c2 with
          | (.ok _, s6, c6) => (.ok head_commit, s6, c6)
          | (.error e, s6, c6) => (.error e, s6, c6)

/-- The public operations of a `WriterCheckout`: the accessor
properties (`datasets`, `metadata`, `branch_name`), `__repr__`,
`commit`, `reset_staging_area` and `close`. -/
inductive WriterOp where
  | datasetsProp
  | metadataProp
  | branchNameProp
  | reprOp
  | commitOp (message : String)
  | resetStagingAreaOp
  | closeOp
deriving DecidableEq, Repr

/-- Dispatch a public `WriterCheckout` operation.  Every operation
starts by re-verifying the writer lock (`__acquire_writer_lock`), so an
operation on a closed checkout raises the closed `PermissionError`.
The accessor properties and `__repr__` only read state. -/
def runWriterOp (op : WriterOp) (s : RepoState) (c : WriterCheckout) :
    Except PyError String × RepoState × WriterCheckout :=
  match op with
  | .datasetsProp =>
    match writer_verify_lock s c with
    | (.ok _, s', c') => (.ok "datasets proxy", s', c')
    | (.error e, s', c') => (.error e, s', c')
  | .metadataProp =>
    match writer_verify_lock s c with
    | (.ok _, s', c') => (.ok "metadata proxy", s', c')
    | (.error e, s', c') => (.error e, s', c')
  | .branchNameProp =>
    match writer_verify_lock s c with
    | (.ok _, s', c') => (.ok c.branch_name, s', c')
    | (.error e, s', c') => (.error e, s', c')
  | .reprOp =>
    match writer_verify_lock s c with
    | (.ok _, s', c') => (.ok ("Hangar WriterCheckout " ++ c.branch_name), s', c')
    | (.error e, s', c') => (.error e, s', c')
  | .commitOp message => writer_commit s c message
  | .resetStagingAreaOp => writer_reset_staging_area s c
  | .closeOp =>
    match writer_close s c with
    | (.ok _, s', c') => (.ok "", s', c')
    | (.error e, s', c') => (.error e, s', c')

/-- The `ReaderCheckout` object of `checkout.py`: the pinned commit
digest and whether the `_datasets` / `_metadata` attributes are still
present (`close` deletes them). -/
structure ReaderCheckout where
  commit_hash : String
  alive : Bool
deriving DecidableEq, Repr

/-- The public operations of a `ReaderCheckout`: the accessor
properties (`datasets`, `metadata`, `commit_hash`), `__repr__` and
`close`. -/
inductive ReaderOp where
  | datasetsProp
  | metadataProp
  | commitHashProp
  | reprOp
  | closeOp
deriving DecidableEq, Repr

/-- Dispatch a public `ReaderCheckout` operation.  Every operation
starts with `__verify_checkout_alive`, so an operation on a closed
reader raises the closed `PermissionError`; no reader operation writes
any repository state. -/
def runReaderOp (op : ReaderOp) (s : RepoState) (r : ReaderCheckout) :
    Except PyError String × RepoState × ReaderCheckout :=
  if r.alive = false then
    (.error (.permissionError closedCheckoutMsg), s, r)
  else
    match op with
    | .datasetsProp => (.ok "datasets proxy", s, r)
    | .metadataProp => (.ok "metadata proxy", s, r)
    | .commitHashProp => (.ok r.commit_hash, s, r)
    | .reprOp => (.ok ("Hangar ReaderCheckout " ++ r.commit_hash), s, r)
    | .closeOp => (.ok "", s, { r with alive := false })

/- ------------------- concrete repository fixtures --------------------- -/

/-- Refs snapshot of the example commit `c0`. -/
def refsC0 : List (String × String) := [("k", "d")]

/-- Refs snapshot of the example commit `c1` (head of branch `dev`). -/
def refsC1 : List (String × String) := [("k", "dd")]

/-- A repository whose stage equals the `master` head commit's refs
(CLEAN), with the writer lock held by token `tok`. -/
def cleanRepoState : RepoState :=
  { branchHeads := [("master", "c0")], stagingBranch := "master",
    stageRefs := refsC0, commitRefs := [("c0", refsC0)],
    hashenv := [("hd", "spec")], stagehashenv := [], stagedFiles := [],
    writerLock := some "tok" }

/-- The open writer checkout holding the lock of `cleanRepoState`. -/
def cleanWriter : WriterCheckout := ⟨"master", "tok", true, .facades true⟩

/-- A repository with branches `master` (staging base, DIRTY stage) and
`dev`, writer lock free. -/
def dirtyRepoState : RepoState :=
  { branchHeads := [("master", "c0"), ("dev", "c1")], stagingBranch := "master",
    stageRefs := [("k", "d"), ("k2", "d2")],
    commitRefs := [("c0", refsC0), ("c1", refsC1)],
    hashenv := [], stagehashenv := [], stagedFiles := [], writerLock := none }

/-- A repository with branches `master` (staging base, CLEAN stage) and
`dev`, writer lock free. -/
def cleanFreeRepoState : RepoState :=
  { branchHeads := [("master", "c0"), ("dev", "c1")], stagingBranch := "master",
    stageRefs := refsC0, commitRefs := [("c0", refsC0), ("c1", refsC1)],
    hashenv := [], stagehashenv := [], stagedFiles := [], writerLock := none }

example : staging_area_status cleanRepoState = "CLEAN" := by decide
example : staging_area_status dirtyRepoState = "DIRTY" := by decide
example : runWriterOp (.commitOp "m") cleanRepoState cleanWriter =
    (.error (.runtimeError emptyCommitMsg), cleanRepoState, cleanWriter) := by decide
example : runWriterOp .resetStagingAreaOp cleanRepoState cleanWriter =
    (.error (.runtimeError emptyResetMsg), cleanRepoState, cleanWriter) := by decide
example : writer_checkout_init dirtyRepoState "dev" "tok2" =
    (.error (.attributeError "NoneType object has no attribute values"),
     dirtyRepoState, ⟨"dev", "tok2", true, .pyNone⟩) := by decide
example : (writer_checkout_init cleanFreeRepoState "dev" "tokA").1 = .ok () := by decide
example : (writer_checkout_init cleanFreeRepoState "dev" "tokA").2.1.stageRefs = refsC1 := by
  decide
example : (writer_checkout_init cleanFreeRepoState "dev" "tokA").2.1.stagingBranch = "dev" := by
  decide

/-- Whether an outcome is a raised `ValueError`. -/
def isValueError {α : Type} : Except PyError α → Bool
  | .error (.valueError _) => true
  | _ => false

/-- Whether an outcome is a raised `AttributeError`. -/
def isAttributeError {α : Type} : Except PyError α → Bool
  | .error (.attributeError _) => true
  | _ => false

/-- A writer checkout on which `close()` has completed: the
`_writer_lock` attribute is gone and the facades are deleted. -/
def closedWriter : WriterCheckout := ⟨"master", "tok", false, .deleted⟩

/-- A reader checkout on which `close()` has completed. -/
def closedReader : ReaderCheckout := ⟨"c0", false⟩

/-- Helper: on an open checkout whose token is the stored lock token,
`__acquire_writer_lock` succeeds and changes nothing. -/
theorem writer_verify_lock_held (s : RepoState) (c : WriterCheckout)
    (hAttr : c.hasLockAttr = true) (hLock : s.writerLock = some c.writer_lock) :
    writer_verify_lock s c = (.ok (), s, c) := by
  unfold writer_verify_lock acquire_writer_lock
  rw [hAttr, hLock]
  simp

/-- Helper: on a closed checkout, `__acquire_writer_lock` raises the
closed `PermissionError` and leaves the repository untouched. -/
theorem writer_verify_lock_closed (s : RepoState) (c : WriterCheckout)
    (hAttr : c.hasLockAttr = false) :
    writer_verify_lock s c =
      (.error (.permissionError closedCheckoutMsg), s, { c with datasets := .deleted }) := by
  unfold writer_verify_lock
  rw [hAttr]
  simp

example : backend_from_heuristics ⟨[300], 4⟩ false = "10" := by decide
example : backend_from_heuristics ⟨[1000], 4⟩ false = "00" := by decide
example : backend_from_heuristics ⟨[5, 7], 4⟩ false = "01" := by decide
example : backend_from_heuristics ⟨[5, 7], 4⟩ true = "00" := by decide
example : str_starts_with "blosc:zstd" "blosc:" = true := by decide
example : backend_opts_from_heuristics "00" ⟨[1], 4⟩ false true =
    .ok (.hdf5 HDF5_00_stdopts_backup) := by decide
example : parse_user_backend_opts (.strArg "30") ⟨[5], 4⟩ false true =
    .error (.valueError "Should not have been able to not select backend") := by decide

example :
    (_verify_array_integrity (fun spec => spec.payload) (fun arr tcode => tcode ++ arr)
      [("ad1", ⟨"10", true, "d1"⟩), ("ad2", ⟨"00", false, "d2"⟩)]).outcome = .ok () := by decide

example :
    (_verify_array_integrity (fun spec => spec.payload) (fun arr tcode => tcode ++ arr)
      [("ad1", ⟨"10", true, "d1"⟩), ("ad2", ⟨"00", false, "d2"⟩)]).warnings =
      [remoteWarnMsg 1 2] := by decide

example :
    (_verify_array_integrity (fun spec => spec.payload) (fun arr tcode => tcode ++ arr)
      [("ad1", ⟨"10", true, "XX"⟩)]).outcome =
      .error (.runtimeError (arrayCorruptionMsg "ad1" "aXX")) := by decide

example :
    _verify_commit_tree_integrity
      [("c0", ⟨"", ""⟩), ("c1", ⟨"c0", ""⟩), ("c2", ⟨"c1", "c0"⟩)]
      ["c0", "c1", "c2"] = .ok () := by decide

example :
    ∃ msg, _verify_commit_tree_integrity
      [("c0", ⟨"", ""⟩), ("c1", ⟨"", ""⟩)] ["c0", "c1"] = .error (.runtimeError msg) := by
  exact ⟨_, rfl⟩

/-- Outcomes of `backend_from_heuristics` are exactly the three codes
`10`, `00`, `01`. -/
theorem backend_from_heuristics_cases (a : NdArray) (vs : Bool) :
    backend_from_heuristics a vs = "10" ∨ backend_from_heuristics a vs = "00" ∨
    backend_from_heuristics a vs = "01" := by
  unfold backend_from_heuristics
  split_ifs <;> simp

/-- `backend_opts_from_heuristics` succeeds on the four codes it
handles. -/
theorem backend_opts_from_heuristics_ok (code : String)
    (hc : code = "10" ∨ code = "00" ∨ code = "01" ∨ code = "50")
    (a : NdArray) (vs avail : Bool) :
    ∃ o, backend_opts_from_heuristics code a vs avail = .ok o := by
  rcases hc with rfl | rfl | rfl | rfl <;> exact ⟨_, rfl⟩

/-- For a known string code, `parse_user_backend_opts` returns the code
with the inferred opts whenever `backend_opts_from_heuristics`
succeeds. -/
theorem parse_str_ok_of_opts_ok (code : String) (proto : NdArray) (vs avail : Bool)
    (h2 : ¬ code ∉ BACKEND_ACCESSOR_MAP) (o : Opts)
    (ho : backend_opts_from_heuristics code proto vs avail = .ok o) :
    parse_user_backend_opts (.strArg code) proto vs avail = .ok ⟨code, .inferred o⟩ := by
  simp only [parse_user_backend_opts]
  rw [if_neg h2, ho]

/-- The failure condition asserted by claim C6, written from the spec's
words for comparison with the source behaviour: `ValueError` exactly
when a string argument is an unknown code, a mapping's `backend` value
is an unknown code or its remaining opts conflict with the chosen
backend (blosc compression on a sub-16-byte prototype), or the
argument has an invalid type. -/
def C6_claimed_failure (arg : UserBackendArg) (proto : NdArray) : Bool :=
  match arg with
  | .strArg code => decide (code ∉ BACKEND_ACCESSOR_MAP)
  | .dictArg backend rest =>
      decide (backend ∉ BACKEND_ACCESSOR_MAP) ||
      (match lookupStr (rest.filter (fun kv => kv.1 != "backend")) "complib" with
       | some complib =>
           decide ((backend = "00" ∨ backend = "01") ∧
             str_starts_with complib "blosc:" = true ∧ proto.nbytes < 16)
       | none => false)
  | .noneArg => false
  | .otherArg => true

/-- The failure condition of the amended claim C6: as claimed, plus the
registered-but-unhandled string code `"30"`. -/
def C6_amended_failure (arg : UserBackendArg) (proto : NdArray) : Bool :=
  C6_claimed_failure arg proto || decide (arg = .strArg "30")

/-- A commit has a well-formed parent record: it is present, and each
non-empty ancestor field names a commit of the set. -/
def commitRecordOk (recs : List (String × CommitParentRec))
    (all_commits : List String) (c : String) : Bool :=
  match lookupStr recs c with
  | none => false
  | some p =>
      decide ((p.master_ancestor = "" ∨ p.master_ancestor ∈ all_commits) ∧
              (p.dev_ancestor = "" ∨ p.dev_ancestor ∈ all_commits))

/-- Number of parent-less commits already remembered by the loop
accumulator. -/
def accCount : Option String → Nat
  | some _ => 1
  | none => 0

@[simp] theorem accCount_some (s : String) : accCount (some s) = 1 := rfl

@[simp] theorem accCount_none : accCount none = 0 := rfl

/-- Characterization of the commit-tree loop: it completes without
error iff every remaining commit has a well-formed parent record and
the remaining parent-less commits, together with the one possibly
already recorded in the accumulator, number at most one. -/
theorem verifyCommitTreeLoop_ok_iff (recs : List (String × CommitParentRec))
    (all_commits : List String) :
    ∀ (l : List String) (acc : Option String),
    verifyCommitTreeLoop recs all_commits l acc = .ok () ↔
      ((∀ c ∈ l, commitRecordOk recs all_commits c = true) ∧
       l.countP (fun c => isParentless recs c) + accCount acc ≤ 1) := by
  intro l
  induction l with
  | nil =>
    intro acc
    simp only [verifyCommitTreeLoop, List.countP_nil, List.not_mem_nil, false_implies,
      implies_true, true_and, Nat.zero_add]
    constructor
    · intro _
      cases acc <;> simp
    · intro _
      trivial
  | cons c rest ih =>
    intro acc
    cases hl : lookupStr recs c with
    | none =>
      simp only [verifyCommitTreeLoop, hl]
      constructor
      · intro h
        exact absurd h (by simp)
      · intro h
        have := h.1 c (by simp)
        simp [commitRecordOk, hl] at this
    | some p =>
      simp only [verifyCommitTreeLoop, hl]
      by_cases hm : p.master_ancestor ≠ "" ∧ p.master_ancestor ∉ all_commits
      · rw [if_pos hm]
        constructor
        · intro h
          exact absurd h (by simp)
        · intro h
          have := h.1 c (by simp)
          simp [commitRecordOk, hl] at this
          rcases this.1 with h1 | h1
          · exact (hm.1 h1).elim
          · exact (hm.2 h1).elim
      · rw [if_neg hm]
        by_cases hd : p.dev_ancestor ≠ "" ∧ p.dev_ancestor ∉ all_commits
        · rw [if_pos hd]
          constructor
          · intro h
            exact absurd h (by simp)
          · intro h
            have := h.1 c (by simp)
            simp [commitRecordOk, hl] at this
            rcases this.2 with h1 | h1
            · exact (hd.1 h1).elim
            · exact (hd.2 h1).elim
        · rw [if_neg hd]
          push_neg at hm hd
          have hcok : commitRecordOk recs all_commits c = true := by
            simp only [commitRecordOk, hl, decide_eq_true_eq]
            constructor
            · by_cases h1 : p.master_ancestor = ""
              · exact Or.inl h1
              · exact Or.inr (hm h1)
            · by_cases h1 : p.dev_ancestor = ""
              · exact Or.inl h1
              · exact Or.inr (hd h1)
          by_cases hpl : p.master_ancestor = "" ∧ p.dev_ancestor = ""
          · rw [if_pos hpl]
            have hplb : isParentless recs c = true := by
              simp [isParentless, hl, hpl.1, hpl.2]
            have hc1 : (c :: rest).countP (fun x => isParentless recs x) =
                rest.countP (fun x => isParentless recs x) + 1 := by
              rw [List.countP_cons, hplb]
              simp
            cases acc with
            | some first =>
              constructor
              · intro h
                exact absurd h (by simp)
              · intro h
                have h2 := h.2
                rw [hc1, accCount_some] at h2
                omega
            | none =>
              rw [ih (some c), hc1, accCount_some, accCount_none]
              constructor
              · intro h
                refine ⟨?_, by omega⟩
                intro x hx
                rcases List.mem_cons.mp hx with rfl | hx
                · exact hcok
                · exact h.1 x hx
              · intro h
                exact ⟨fun x hx => h.1 x (List.mem_cons_of_mem _ hx), by omega⟩
          · rw [if_neg hpl]
            rw [ih acc]
            have hplb : isParentless recs c = false := by
              simp only [isParentless, hl]
              rw [Bool.and_eq_false_iff]
              by_cases h1 : p.master_ancestor = ""
              · right
                rw [beq_eq_false_iff_ne]
                intro h2
                exact hpl ⟨h1, h2⟩
              · left
                rw [beq_eq_false_iff_ne]
                exact h1
            have hc0 : (c :: rest).countP (fun x => isParentless recs x) =
                rest.countP (fun x => isParentless recs x) := by
              rw [List.countP_cons, hplb]
              simp
            rw [hc0]
            constructor
            · intro h
              refine ⟨?_, h.2⟩
              intro x hx
              rcases List.mem_cons.mp hx with rfl | hx
              · exact hcok
              · exact h.1 x hx
            · intro h
              exact ⟨fun x hx => h.1 x (List.mem_cons_of_mem _ hx), h.2⟩

/-- Every failure of the commit-tree loop is a `RuntimeError`. -/
theorem verifyCommitTreeLoop_error_shape (recs : List (String × CommitParentRec))
    (all_commits : List String) :
    ∀ (l : List String) (acc : Option String),
    verifyCommitTreeLoop recs all_commits l acc = .ok () ∨
    ∃ msg, verifyCommitTreeLoop recs all_commits l acc = .error (.runtimeError msg) := by
  intro l
  induction l with
  | nil =>
    intro acc
    exact Or.inl rfl
  | cons c rest ih =>
    intro acc
    cases hl : lookupStr recs c with
    | none =>
      right
      exact ⟨"Data corruption detected for parent ref of commit " ++ c ++
        ". Parent ref not recorded in refs db.", by simp [verifyCommitTreeLoop, hl]⟩
    | some p =>
      simp only [verifyCommitTreeLoop, hl]
      by_cases hm : p.master_ancestor ≠ "" ∧ p.master_ancestor ∉ all_commits
      · rw [if_pos hm]
        exact Or.inr ⟨_, rfl⟩
      · rw [if_neg hm]
        by_cases hd : p.dev_ancestor ≠ "" ∧ p.dev_ancestor ∉ all_commits
        · rw [if_pos hd]
          exact Or.inr ⟨_, rfl⟩
        · rw [if_neg hd]
          by_cases hpl : p.master_ancestor = "" ∧ p.dev_ancestor = ""
          · rw [if_pos hpl]
            cases acc with
            | some first => exact Or.inr ⟨_, rfl⟩
            | none => exact ih (some c)
          · rw [if_neg hpl]
            exact ih acc

/-- Characterization of the array-verification loop under known
backends: it completes without error iff every remaining local entry's
recomputed digest matches its key. -/
theorem verifyArraysLoop_ok_iff (rd : ArraySpec → String) (ah : String → String → String) :
    ∀ (l : List (String × ArraySpec)) (bes : List String) (n : Nat),
    (∀ e ∈ l, e.2.backend ∈ BACKEND_ACCESSOR_MAP) →
    ((verifyArraysLoop rd ah l bes n).1 = .ok () ↔
      ∀ e ∈ l, e.2.islocal = true →
        ah (rd e.2) (hash_type_code_from_digest e.1) = e.1) := by
  intro l
  induction l with
  | nil =>
    intro bes n _
    simp [verifyArraysLoop]
  | cons e rest ih =>
    intro bes n hknown
    obtain ⟨d, spec⟩ := e
    have hmem : spec.backend ∈ BACKEND_ACCESSOR_MAP := hknown (d, spec) (by simp)
    have hrest : ∀ x ∈ rest, x.2.backend ∈ BACKEND_ACCESSOR_MAP :=
      fun x hx => hknown x (List.mem_cons_of_mem _ hx)
    simp only [verifyArraysLoop]
    rw [if_neg (fun hc => hc.2 hmem)]
    by_cases hloc : spec.islocal = false
    · rw [if_pos hloc]
      rw [ih (if spec.backend ∈ bes then bes else bes ++ [spec.backend]) (n + 1) hrest]
      constructor
      · intro h x hx
        rcases List.mem_cons.mp hx with rfl | hx
        · intro hl
          rw [hloc] at hl
          exact absurd hl (by simp)
        · exact h x hx
      · intro h x hx
        exact h x (List.mem_cons_of_mem _ hx)
    · rw [if_neg hloc]
      have hloct : spec.islocal = true := by
        revert hloc
        cases spec.islocal <;> simp
      by_cases hcd : ah (rd spec) (hash_type_code_from_digest d) ≠ d
      · rw [if_pos hcd]
        constructor
        · intro h
          exact absurd h (by simp)
        · intro h
          exact absurd (h (d, spec) (by simp) hloct) hcd
      · rw [if_neg hcd]
        push_neg at hcd
        rw [ih (if spec.backend ∈ bes then bes else bes ++ [spec.backend]) n hrest]
        constructor
        · intro h x hx
          rcases List.mem_cons.mp hx with rfl | hx
          · intro _
            exact hcd
          · exact h x hx
        · intro h x hx
          exact h x (List.mem_cons_of_mem _ hx)

/-- Under known backends, every failure of the array-verification loop
is the corruption `RuntimeError` naming the expected digest and the
differing recomputed digest of some local entry. -/
theorem verifyArraysLoop_error_shape (rd : ArraySpec → String)
    (ah : String → String → String) :
    ∀ (l : List (String × ArraySpec)) (bes : List String) (n : Nat),
    (∀ e ∈ l, e.2.backend ∈ BACKEND_ACCESSOR_MAP) →
    ((verifyArraysLoop rd ah l bes n).1 = .ok () ∨
     ∃ d cd, (verifyArraysLoop rd ah l bes n).1 =
         .error (.runtimeError (arrayCorruptionMsg d cd)) ∧ cd ≠ d ∧
       ∃ spec, (d, spec) ∈ l ∧ spec.islocal = true ∧
         ah (rd spec) (hash_type_code_from_digest d) = cd) := by
  intro l
  induction l with
  | nil =>
    intro bes n _
    exact Or.inl rfl
  | cons e rest ih =>
    intro bes n hknown
    obtain ⟨d, spec⟩ := e
    have hmem : spec.backend ∈ BACKEND_ACCESSOR_MAP := hknown (d, spec) (by simp)
    have hrest : ∀ x ∈ rest, x.2.backend ∈ BACKEND_ACCESSOR_MAP :=
      fun x hx => hknown x (List.mem_cons_of_mem _ hx)
    simp only [verifyArraysLoop]
    rw [if_neg (fun hc => hc.2 hmem)]
    by_cases hloc : spec.islocal = false
    · rw [if_pos hloc]
      rcases ih (if spec.backend ∈ bes then bes else bes ++ [spec.backend]) (n + 1) hrest with
        hok | ⟨d', cd', h1, h2, spec', hm', hl', he'⟩
      · exact Or.inl hok
      · exact Or.inr ⟨d', cd', h1, h2, spec', List.mem_cons_of_mem _ hm', hl', he'⟩
    · rw [if_neg hloc]
      have hloct : spec.islocal = true := by
        revert hloc
        cases spec.islocal <;> simp
      by_cases hcd : ah (rd spec) (hash_type_code_from_digest d) ≠ d
      · rw [if_pos hcd]
        exact Or.inr ⟨d, ah (rd spec) (hash_type_code_from_digest d), rfl, hcd, spec,
          by simp, hloct, rfl⟩
      · rw [if_neg hcd]
        rcases ih (if spec.backend ∈ bes then bes else bes ++ [spec.backend]) n hrest with
          hok | ⟨d', cd', h1, h2, spec', hm', hl', he'⟩
        · exact Or.inl hok
        · exact Or.inr ⟨d', cd', h1, h2, spec', List.mem_cons_of_mem _ hm', hl', he'⟩

/-- When the array-verification loop completes, its remote counter has
counted exactly the non-local entries. -/
theorem verifyArraysLoop_nremote (rd : ArraySpec → String)
    (ah : String → String → String) :
    ∀ (l : List (String × ArraySpec)) (bes : List String) (n : Nat),
    (verifyArraysLoop rd ah l bes n).1 = .ok () →
    (verifyArraysLoop rd ah l bes n).2.2 =
      n + l.countP (fun e => e.2.islocal == false) := by
  intro l
  induction l with
  | nil =>
    intro bes n _
    simp [verifyArraysLoop]
  | cons e rest ih =>
    intro bes n
    obtain ⟨d, spec⟩ := e
    simp only [verifyArraysLoop]
    by_cases hb : spec.backend ∉ bes ∧ spec.backend ∉ BACKEND_ACCESSOR_MAP
    · rw [if_pos hb]
      intro h
      exact absurd h (by simp)
    · rw [if_neg hb]
      by_cases hloc : spec.islocal = false
      · rw [if_pos hloc]
        intro h
        rw [ih (if spec.backend ∈ bes then bes else bes ++ [spec.backend]) (n + 1) h]
        rw [List.countP_cons]
        simp [hloc]
        omega
      · rw [if_neg hloc]
        by_cases hcd : ah (rd spec) (hash_type_code_from_digest d) ≠ d
        · rw [if_pos hcd]
          intro h
          exact absurd h (by simp)
        · rw [if_neg hcd]
          intro h
          rw [ih (if spec.backend ∈ bes then bes else bes ++ [spec.backend]) n h]
          rw [List.countP_cons]
          simp [hloc]

/-- Data-hash entries of a small example repository: one local entry
stored by backend `10` and one remote-only entry of backend `00`. -/
def arrayEntriesW : List (String × ArraySpec) :=
  [("ad1", ⟨"10", true, "d1"⟩), ("ad2", ⟨"00", false, "d2"⟩)]

/-- Parent records of a small example commit tree: one initial commit,
one child, one merge. -/
def commitRecsW : List (String × CommitParentRec) :=
  [("c0", ⟨"", ""⟩), ("c1", ⟨"c0", ""⟩), ("c2", ⟨"c1", "c0"⟩)]

/- ----------------------------- claims --------------------------------- -/

/-- C1: for every writer checkout whose staging-area status is CLEAN,
both `commit(message)` and `reset_staging_area()` are rejected with the
empty-commit `RuntimeError`, and the repository state — staging area,
branch heads, hash databases and staged payload files — is returned
unchanged. -/
theorem C1_clean_commit_and_reset_rejected (s : RepoState) (c : WriterCheckout)
    (message : String) (hAttr : c.hasLockAttr = true)
    (hLock : s.writerLock = some c.writer_lock)
    (hClean : staging_area_status s = "CLEAN") :
    runWriterOp (.commitOp message) s c = (.error (.runtimeError emptyCommitMsg), s, c) ∧
    runWriterOp .resetStagingAreaOp s c = (.error (.runtimeError emptyResetMsg), s, c) := by
  have hv := writer_verify_lock_held s c hAttr hLock
  constructor
  · show writer_commit s c message = _
    unfold writer_commit
    rw [hv]
    simp [hClean]
  · show writer_reset_staging_area s c = _
    unfold writer_reset_staging_area
    rw [hv]
    simp [hClean]

/-- C1 witness: the concrete CLEAN repository rejects both operations
unchanged. -/
theorem C1_clean_commit_and_reset_rejected_witness :
    runWriterOp (.commitOp "m") cleanRepoState cleanWriter =
      (.error (.runtimeError emptyCommitMsg), cleanRepoState, cleanWriter) ∧
    runWriterOp .resetStagingAreaOp cleanRepoState cleanWriter =
      (.error (.runtimeError emptyResetMsg), cleanRepoState, cleanWriter) :=
  C1_clean_commit_and_reset_rejected cleanRepoState cleanWriter "m"
    (by decide) (by decide) (by decide)

/-- C2: the backend selection heuristic returns exactly `"10"` for 1-D
prototypes of size < 400, else `"00"` for 1-D prototypes of size
≤ 10,000,000, else `"01"` when `variable_shape` is false, else `"00"`;
being a pure function of `(array, variable_shape)` it is deterministic
with no hidden state. -/
theorem C2_backend_from_heuristics_spec (a : NdArray) (vs : Bool) :
    (a.ndim = 1 ∧ a.size < 400 → backend_from_heuristics a vs = "10") ∧
    (a.ndim = 1 ∧ 400 ≤ a.size ∧ a.size ≤ 10000000 → backend_from_heuristics a vs = "00") ∧
    (¬(a.ndim = 1 ∧ a.size ≤ 10000000) → vs = false → backend_from_heuristics a vs = "01") ∧
    (¬(a.ndim = 1 ∧ a.size ≤ 10000000) → vs = true → backend_from_heuristics a vs = "00") := by
  unfold backend_from_heuristics
  refine ⟨fun h => ?_, fun h => ?_, fun h hv => ?_, fun h hv => ?_⟩
  · rw [if_pos h]
  · rw [if_neg (fun hc => absurd hc.2 (by omega)), if_pos ⟨h.1, h.2.2⟩]
  · rw [if_neg (fun hc => h ⟨hc.1, by omega⟩), if_neg h, if_pos hv]
  · rw [if_neg (fun hc => h ⟨hc.1, by omega⟩), if_neg h, if_neg (by simp [hv])]

/-- C2 witness: the four Scenario-D inputs of the spec. -/
theorem C2_backend_from_heuristics_spec_witness :
    backend_from_heuristics ⟨[300], 4⟩ false = "10" ∧
    backend_from_heuristics ⟨[1000], 4⟩ false = "00" ∧
    backend_from_heuristics ⟨[5, 7], 4⟩ false = "01" ∧
    backend_from_heuristics ⟨[5, 7], 4⟩ true = "00" :=
  ⟨(C2_backend_from_heuristics_spec ⟨[300], 4⟩ false).1 (by decide),
   (C2_backend_from_heuristics_spec ⟨[1000], 4⟩ false).2.1 (by decide),
   (C2_backend_from_heuristics_spec ⟨[5, 7], 4⟩ false).2.2.1 (by decide) rfl,
   (C2_backend_from_heuristics_spec ⟨[5, 7], 4⟩ true).2.2.2 (by decide) rfl⟩

/-- C3 (code bug): on writer bootstrap with a DIRTY stage and a
requested branch differing from the staging base, construction fails —
but with an `AttributeError` raised inside `close()` (iterating over
`self._datasets`, still `None` at that point of `__init__`), not with
the documented dirty-switch `ValueError`; the stage contents and the
rest of the repository are unchanged (the transiently acquired writer
lock is back to free).  The CLEAN-switch half of the claim behaves as
specified: the stage is replaced by the requested branch's head refs
and the staging base pointer is repointed. -/
theorem C3_branch_switch_eval :
    writer_checkout_init dirtyRepoState "dev" "tok2" =
      (.error (.attributeError "NoneType object has no attribute values"),
       dirtyRepoState, ⟨"dev", "tok2", true, .pyNone⟩) ∧
    isValueError (writer_checkout_init dirtyRepoState "dev" "tok2").1 = false ∧
    (writer_checkout_init cleanFreeRepoState "dev" "tokA").1 = .ok () ∧
    (writer_checkout_init cleanFreeRepoState "dev" "tokA").2.1.stageRefs = refsC1 ∧
    (writer_checkout_init cleanFreeRepoState "dev" "tokA").2.1.stagingBranch = "dev" := by
  decide

/-- C7: for the compressed backends `00` and `01`, the default options
are the blosc (`fast`) option set exactly when the blosc filter is
available and the prototype is at least 16 bytes, and the lzf backup
option set otherwise — the backup being forced for prototypes under 16
bytes regardless of availability. -/
theorem C7_compressed_backend_default_opts (a : NdArray) (vs avail : Bool) :
    backend_opts_from_heuristics "00" a vs avail =
      .ok (.hdf5 (if avail = true ∧ 16 ≤ a.nbytes
                  then HDF5_00_stdopts_default else HDF5_00_stdopts_backup)) ∧
    backend_opts_from_heuristics "01" a vs avail =
      .ok (.hdf5 (if avail = true ∧ 16 ≤ a.nbytes
                  then HDF5_01_stdopts_default else HDF5_01_stdopts_backup)) := by
  have h00 : str_starts_with HDF5_00_stdopts_default.complib "blosc:" = true := by decide
  have h00b : str_starts_with HDF5_00_stdopts_backup.complib "blosc:" = false := by decide
  have h01 : str_starts_with HDF5_01_stdopts_default.complib "blosc:" = true := by decide
  have h01b : str_starts_with HDF5_01_stdopts_backup.complib "blosc:" = false := by decide
  constructor
  · cases avail
    · simp [backend_opts_from_heuristics, h00b]
    · by_cases h : a.nbytes < 16
      · have h' : ¬ 16 ≤ a.nbytes := by omega
        simp [backend_opts_from_heuristics, h00, h, h']
      · have h' : 16 ≤ a.nbytes := by omega
        simp [backend_opts_from_heuristics, h00, h, h']
  · cases avail
    · simp [backend_opts_from_heuristics, h01b]
    · by_cases h : a.nbytes < 16
      · have h' : ¬ 16 ≤ a.nbytes := by omega
        simp [backend_opts_from_heuristics, h01, h, h']
      · have h' : 16 ≤ a.nbytes := by omega
        simp [backend_opts_from_heuristics, h01, h, h']

/-- C8: every public operation of a reader or writer checkout invoked
after `close()` fails with the closed `PermissionError` and leaves the
repository state untouched. -/
theorem C8_operations_after_close_rejected (s : RepoState) (c : WriterCheckout)
    (r : ReaderCheckout) (op : WriterOp) (rop : ReaderOp)
    (hw : c.hasLockAttr = false) (hr : r.alive = false) :
    runWriterOp op s c =
      (.error (.permissionError closedCheckoutMsg), s, { c with datasets := .deleted }) ∧
    runReaderOp rop s r = (.error (.permissionError closedCheckoutMsg), s, r) := by
  have hv := writer_verify_lock_closed s c hw
  constructor
  · cases op <;>
      simp only [runWriterOp, writer_commit, writer_reset_staging_area, writer_close, hv]
  · unfold runReaderOp
    rw [hr]
    simp

/-- C8 witness: a closed writer and a closed reader both reject a
concrete operation. -/
theorem C8_operations_after_close_rejected_witness :
    runWriterOp (.commitOp "m") cleanRepoState closedWriter =
      (.error (.permissionError closedCheckoutMsg), cleanRepoState,
       { closedWriter with datasets := .deleted }) ∧
    runReaderOp .datasetsProp cleanRepoState closedReader =
      (.error (.permissionError closedCheckoutMsg), cleanRepoState, closedReader) :=
  C8_operations_after_close_rejected cleanRepoState closedWriter closedReader
    (.commitOp "m") .datasetsProp (by decide) (by decide)

/-- C9: the backend code `"30"` is registered in the known-backend
accessor map (so it passes the unknown-code check of
`parse_user_backend_opts`), yet for every prototype the string `"30"`
makes `parse_user_backend_opts` raise the `ValueError` coming from
`backend_opts_from_heuristics`, which handles only `"10"`, `"00"`,
`"01"` and `"50"`; and the heuristic itself can never produce `"30"`,
so the `None` case of the claim holds vacuously. -/
theorem C9_backend_30_registered_but_unusable :
    "30" ∈ BACKEND_ACCESSOR_MAP ∧
    (∀ (proto : NdArray) (vs avail : Bool),
      parse_user_backend_opts (.strArg "30") proto vs avail =
        .error (.valueError "Should not have been able to not select backend")) ∧
    (∀ (a : NdArray) (vs : Bool),
      backend_from_heuristics a vs ∈ (["10", "00", "01"] : List String)) := by
  refine ⟨by decide, fun proto vs avail => ?_, fun a vs => ?_⟩
  · rfl
  · unfold backend_from_heuristics
    split_ifs <;> simp

/-- C10 (code bug): when writer bootstrap aborts on a dirty switch, the
writer lock is indeed released before the failure propagates, so the
repository is not left locked and a subsequent writer construction
succeeds in acquiring the lock; but the close-out is incomplete — the
error that propagates is the `AttributeError` from `close()` rather
than the dirty-switch `ValueError`, and the failed checkout still
carries its `_writer_lock` attribute and `None` facades instead of
having dropped them. -/
theorem C10_dirty_switch_releases_lock_eval :
    isAttributeError (writer_checkout_init dirtyRepoState "dev" "tok2").1 = true ∧
    (writer_checkout_init dirtyRepoState "dev" "tok2").2.1.writerLock = none ∧
    (writer_checkout_init dirtyRepoState "dev" "tok2").2.2.hasLockAttr = true ∧
    (writer_checkout_init dirtyRepoState "dev" "tok2").2.2.datasets = .pyNone ∧
    (writer_checkout_init
      ((writer_checkout_init dirtyRepoState "dev" "tok2").2.1) "master" "tokB").1 = .ok () ∧
    (writer_checkout_init
      ((writer_checkout_init dirtyRepoState "dev" "tok2").2.1) "master"
        "tokB").2.1.writerLock = some "tokB" := by
  decide

/-- C6 counterexample: the string `"30"` is a known backend code, so
the claimed failure condition does not hold for it, yet
`parse_user_backend_opts` raises a `ValueError` instead of returning a
`(backend, opts)` pair. -/
theorem C6_counterexample_backend_30 :
    C6_claimed_failure (.strArg "30") ⟨[5], 4⟩ = false ∧
    parse_user_backend_opts (.strArg "30") ⟨[5], 4⟩ false true =
      .error (.valueError "Should not have been able to not select backend") := by
  decide

/-- C6 (amended): `parse_user_backend_opts` fails with `ValueError`
exactly when the argument is a string that is not a known backend code
or is the known-but-unhandled code `"30"`; or is a mapping whose
`backend` value is not a known code, or whose remaining opts request
blosc compression for backend `00`/`01` on a prototype smaller than 16
bytes; or is of any type other than string, mapping, or absent.  In
every other case it returns a `(backend, opts)` pair. -/
theorem C6_parse_user_backend_opts_amended (arg : UserBackendArg) (proto : NdArray)
    (vs avail : Bool) :
    isValueError (parse_user_backend_opts arg proto vs avail) =
      C6_amended_failure arg proto ∧
    (C6_amended_failure arg proto = false →
      ∃ r, parse_user_backend_opts arg proto vs avail = .ok r) := by
  cases arg with
  | strArg code =>
    by_cases hmem : code ∈ BACKEND_ACCESSOR_MAP
    · have hcases : code = "00" ∨ code = "01" ∨ code = "10" ∨ code = "50" ∨ code = "30" := by
        have h := hmem
        simp only [BACKEND_ACCESSOR_MAP, List.mem_cons, List.not_mem_nil, or_false] at h
        tauto
      rcases hcases with rfl | rfl | rfl | rfl | rfl
      · obtain ⟨o, ho⟩ := backend_opts_from_heuristics_ok "00" (by decide) proto vs avail
        have hp := parse_str_ok_of_opts_ok "00" proto vs avail (by decide) o ho
        refine ⟨?_, fun _ => ⟨_, hp⟩⟩
        rw [hp]
        rfl
      · obtain ⟨o, ho⟩ := backend_opts_from_heuristics_ok "01" (by decide) proto vs avail
        have hp := parse_str_ok_of_opts_ok "01" proto vs avail (by decide) o ho
        refine ⟨?_, fun _ => ⟨_, hp⟩⟩
        rw [hp]
        rfl
      · obtain ⟨o, ho⟩ := backend_opts_from_heuristics_ok "10" (by decide) proto vs avail
        have hp := parse_str_ok_of_opts_ok "10" proto vs avail (by decide) o ho
        refine ⟨?_, fun _ => ⟨_, hp⟩⟩
        rw [hp]
        rfl
      · obtain ⟨o, ho⟩ := backend_opts_from_heuristics_ok "50" (by decide) proto vs avail
        have hp := parse_str_ok_of_opts_ok "50" proto vs avail (by decide) o ho
        refine ⟨?_, fun _ => ⟨_, hp⟩⟩
        rw [hp]
        rfl
      · refine ⟨by rfl, fun h => ?_⟩
        have hfa : C6_amended_failure (.strArg "30") proto = true := by rfl
        rw [hfa] at h
        exact Bool.noConfusion h
    · have hfa : C6_amended_failure (.strArg code) proto = true := by
        simp [C6_amended_failure, C6_claimed_failure, hmem]
      have hp : parse_user_backend_opts (.strArg code) proto vs avail =
          .error (.valueError ("Backend specifier: " ++ code ++ " not known")) := by
        simp only [parse_user_backend_opts]
        rw [if_pos hmem]
      refine ⟨?_, fun h => ?_⟩
      · rw [hp, hfa]
        rfl
      · rw [hfa] at h
        exact Bool.noConfusion h
  | dictArg backend rest =>
    by_cases hmem : backend ∈ BACKEND_ACCESSOR_MAP
    · cases hcl : lookupStr (rest.filter (fun kv => kv.1 != "backend")) "complib" with
      | none =>
        have hfa : C6_amended_failure (.dictArg backend rest) proto = false := by
          simp [C6_amended_failure, C6_claimed_failure, hmem, hcl]
        have hp : parse_user_backend_opts (.dictArg backend rest) proto vs avail =
            .ok ⟨backend, .explicit (rest.filter (fun kv => kv.1 != "backend"))⟩ := by
          simp only [parse_user_backend_opts]
          rw [if_neg (not_not_intro hmem)]
          simp only [hcl]
        refine ⟨?_, fun _ => ⟨_, hp⟩⟩
        rw [hp, hfa]
        rfl
      | some complib =>
        by_cases hcond : (backend = "00" ∨ backend = "01") ∧
            str_starts_with complib "blosc:" = true ∧ proto.nbytes < 16
        · have hfa : C6_amended_failure (.dictArg backend rest) proto = true := by
            simp [C6_amended_failure, C6_claimed_failure, hmem, hcl, hcond]
          have hp : parse_user_backend_opts (.dictArg backend rest) proto vs avail =
              .error (.valueError ("Blosc compression for backend " ++ backend ++
                " is not supported for arrays less than 16 bytes in size.")) := by
            simp only [parse_user_backend_opts]
            rw [if_neg (not_not_intro hmem)]
            simp only [hcl]
            rw [if_pos hcond]
          refine ⟨?_, fun h => ?_⟩
          · rw [hp, hfa]
            rfl
          · rw [hfa] at h
            exact Bool.noConfusion h
        · have hfa : C6_amended_failure (.dictArg backend rest) proto = false := by
            simp [C6_amended_failure, C6_claimed_failure, hmem, hcl, hcond]
          have hp : parse_user_backend_opts (.dictArg backend rest) proto vs avail =
              .ok ⟨backend, .explicit (rest.filter (fun kv => kv.1 != "backend"))⟩ := by
            simp only [parse_user_backend_opts]
            rw [if_neg (not_not_intro hmem)]
            simp only [hcl]
            rw [if_neg hcond]
          refine ⟨?_, fun _ => ⟨_, hp⟩⟩
          rw [hp, hfa]
          rfl
    · have hfa : C6_amended_failure (.dictArg backend rest) proto = true := by
        simp [C6_amended_failure, C6_claimed_failure, hmem]
      have hp : parse_user_backend_opts (.dictArg backend rest) proto vs avail =
          .error (.valueError ("Backend specifier: " ++ backend ++ " not known")) := by
        simp only [parse_user_backend_opts]
        rw [if_pos hmem]
      refine ⟨?_, fun h => ?_⟩
      · rw [hp, hfa]
        rfl
      · rw [hfa] at h
        exact Bool.noConfusion h
  | noneArg =>
    have hfa : C6_amended_failure .noneArg proto = false := by rfl
    have hc : backend_from_heuristics proto vs = "10" ∨
        backend_from_heuristics proto vs = "00" ∨
        backend_from_heuristics proto vs = "01" ∨
        backend_from_heuristics proto vs = "50" := by
      rcases backend_from_heuristics_cases proto vs with h | h | h <;> tauto
    obtain ⟨o, ho⟩ := backend_opts_from_heuristics_ok _ hc proto vs avail
    have hp : parse_user_backend_opts .noneArg proto vs avail =
        .ok ⟨backend_from_heuristics proto vs, .inferred o⟩ := by
      simp only [parse_user_backend_opts]
      simp only [ho]
    refine ⟨?_, fun _ => ⟨_, hp⟩⟩
    rw [hp, hfa]
    rfl
  | otherArg =>
    refine ⟨by rfl, fun h => ?_⟩
    have hfa : C6_amended_failure .otherArg proto = true := by rfl
    rw [hfa] at h
    exact Bool.noConfusion h

/-- C6 witness: the known code `"10"` is not a failure case of the
amended condition and yields a `(backend, opts)` pair. -/
theorem C6_parse_user_backend_opts_amended_witness :
    C6_amended_failure (.strArg "10") ⟨[5], 4⟩ = false ∧
    (∃ r, parse_user_backend_opts (.strArg "10") ⟨[5], 4⟩ false true = .ok r) :=
  ⟨by decide,
   (C6_parse_user_backend_opts_amended (.strArg "10") ⟨[5], 4⟩ false true).2 (by decide)⟩

/-- C4: in the array-integrity pass (entries' backends all registered;
`rd` the backend read and `ah` the hash machine, inputs of the model):
the corruption `RuntimeError` naming the expected digest and the
differing recomputed digest is raised iff some local entry's recomputed
digest differs from its key; non-local entries are skipped and, when
the pass completes, are reported through one non-fatal warning iff any
exist; and the set of closed backend accessors equals the set of opened
ones on every exit path. -/
theorem C4_array_integrity (rd : ArraySpec → String) (ah : String → String → String)
    (entries : List (String × ArraySpec))
    (hknown : ∀ e ∈ entries, e.2.backend ∈ BACKEND_ACCESSOR_MAP) :
    ((∃ d cd, (_verify_array_integrity rd ah entries).outcome =
        .error (.runtimeError (arrayCorruptionMsg d cd)) ∧ cd ≠ d ∧
        ∃ spec, (d, spec) ∈ entries ∧ spec.islocal = true ∧
          ah (rd spec) (hash_type_code_from_digest d) = cd) ↔
      ∃ e ∈ entries, e.2.islocal = true ∧
        ah (rd e.2) (hash_type_code_from_digest e.1) ≠ e.1) ∧
    ((_verify_array_integrity rd ah entries).outcome = .ok () →
      ((_verify_array_integrity rd ah entries).warnings ≠ [] ↔
        ∃ e ∈ entries, e.2.islocal = false)) ∧
    (_verify_array_integrity rd ah entries).closed =
      (_verify_array_integrity rd ah entries).opened := by
  have hout : (_verify_array_integrity rd ah entries).outcome =
      (verifyArraysLoop rd ah entries [] 0).1 := rfl
  have hiff := verifyArraysLoop_ok_iff rd ah entries [] 0 hknown
  refine ⟨⟨?_, ?_⟩, ?_, rfl⟩
  · rintro ⟨d, cd, h1, h2, spec, hm, hl, he⟩
    refine ⟨(d, spec), hm, hl, ?_⟩
    rw [he]
    exact h2
  · rintro ⟨e, he, hl, hne⟩
    rcases verifyArraysLoop_error_shape rd ah entries [] 0 hknown with
      hok | ⟨d, cd, h1, h2, spec, hm, hl', he'⟩
    · exact absurd (hiff.mp hok e he hl) hne
    · exact ⟨d, cd, by rw [hout]; exact h1, h2, spec, hm, hl', he'⟩
  · intro hok
    have hok' : (verifyArraysLoop rd ah entries [] 0).1 = .ok () := by
      rw [← hout]
      exact hok
    have hn := verifyArraysLoop_nremote rd ah entries [] 0 hok'
    have hw : (_verify_array_integrity rd ah entries).warnings =
        (if 0 < (verifyArraysLoop rd ah entries [] 0).2.2
         then [remoteWarnMsg (verifyArraysLoop rd ah entries [] 0).2.2 entries.length]
         else []) := by
      simp only [_verify_array_integrity]
      rw [hok']
    rw [hw, hn]
    constructor
    · intro hne
      by_cases hc : 0 < entries.countP (fun x => x.2.islocal == false)
      · obtain ⟨x, hx, hp⟩ := List.countP_pos_iff.mp hc
        refine ⟨x, hx, ?_⟩
        simpa using hp
      · exact absurd (by rw [if_neg (by omega)]) hne
    · rintro ⟨x, hx, hl⟩
      have hc : 0 < entries.countP (fun y => y.2.islocal == false) :=
        List.countP_pos_iff.mpr ⟨x, hx, by simp [hl]⟩
      rw [if_pos (by omega)]
      simp

/-- C4 witness: a concrete entry list with one local and one remote
entry, read back through its payload field and hashed by prefixing the
type code. -/
theorem C4_array_integrity_witness :
    (∀ e ∈ arrayEntriesW, e.2.backend ∈ BACKEND_ACCESSOR_MAP) ∧
    (_verify_array_integrity (fun spec => spec.payload)
        (fun arr tcode => tcode ++ arr) arrayEntriesW).closed =
      (_verify_array_integrity (fun spec => spec.payload)
        (fun arr tcode => tcode ++ arr) arrayEntriesW).opened :=
  ⟨by decide,
   (C4_array_integrity (fun spec => spec.payload) (fun arr tcode => tcode ++ arr)
     arrayEntriesW (by decide)).2.2⟩

/-- C5: the commit-tree pass raises a corruption `RuntimeError` iff
some commit lacks a parent record, or names a master or dev ancestor
outside the commit set, or at least two parent-less commits exist; a
commit set in which every commit has a well-formed parent record and
exactly one commit is parent-less passes without error. -/
theorem C5_commit_tree_integrity (recs : List (String × CommitParentRec))
    (all_commits : List String) :
    ((∃ msg, _verify_commit_tree_integrity recs all_commits =
        .error (.runtimeError msg)) ↔
      (∃ c ∈ all_commits, lookupStr recs c = none) ∨
      (∃ c ∈ all_commits, ∃ p, lookupStr recs c = some p ∧
        ((p.master_ancestor ≠ "" ∧ p.master_ancestor ∉ all_commits) ∨
         (p.dev_ancestor ≠ "" ∧ p.dev_ancestor ∉ all_commits))) ∨
      2 ≤ all_commits.countP (fun c => isParentless recs c)) ∧
    (((∀ c ∈ all_commits, commitRecordOk recs all_commits c = true) ∧
      all_commits.countP (fun c => isParentless recs c) = 1) →
      _verify_commit_tree_integrity recs all_commits = .ok ()) := by
  have hdef : _verify_commit_tree_integrity recs all_commits =
      verifyCommitTreeLoop recs all_commits all_commits none := rfl
  have hiff := verifyCommitTreeLoop_ok_iff recs all_commits all_commits none
  have hbad : (¬ ∀ c ∈ all_commits, commitRecordOk recs all_commits c = true) ↔
      (∃ c ∈ all_commits, lookupStr recs c = none) ∨
      (∃ c ∈ all_commits, ∃ p, lookupStr recs c = some p ∧
        ((p.master_ancestor ≠ "" ∧ p.master_ancestor ∉ all_commits) ∨
         (p.dev_ancestor ≠ "" ∧ p.dev_ancestor ∉ all_commits))) := by
    constructor
    · intro h
      push_neg at h
      obtain ⟨c, hc, hnot⟩ := h
      cases hl : lookupStr recs c with
      | none => exact Or.inl ⟨c, hc, hl⟩
      | some p =>
        right
        refine ⟨c, hc, p, hl, ?_⟩
        have hnp : ¬((p.master_ancestor = "" ∨ p.master_ancestor ∈ all_commits) ∧
            (p.dev_ancestor = "" ∨ p.dev_ancestor ∈ all_commits)) := by
          intro hok
          apply hnot
          simp only [commitRecordOk, hl, decide_eq_true_eq]
          exact hok
        rcases not_and_or.mp hnp with h1 | h1
        · left
          push_neg at h1
          exact h1
        · right
          push_neg at h1
          exact h1
    · intro h hall
      rcases h with ⟨c, hc, hl⟩ | ⟨c, hc, p, hl, hbadp⟩
      · have := hall c hc
        simp [commitRecordOk, hl] at this
      · have := hall c hc
        simp only [commitRecordOk, hl, decide_eq_true_eq] at this
        rcases hbadp with ⟨h1, h2⟩ | ⟨h1, h2⟩
        · rcases this.1 with h3 | h3
          · exact h1 h3
          · exact h2 h3
        · rcases this.2 with h3 | h3
          · exact h1 h3
          · exact h2 h3
  constructor
  · constructor
    · rintro ⟨msg, hmsg⟩
      have hne : verifyCommitTreeLoop recs all_commits all_commits none ≠ .ok () := by
        rw [← hdef, hmsg]
        simp
      have hne2 : ¬((∀ c ∈ all_commits, commitRecordOk recs all_commits c = true) ∧
          all_commits.countP (fun c => isParentless recs c) + accCount none ≤ 1) :=
        fun hcontra => hne (hiff.mpr hcontra)
      rcases not_and_or.mp hne2 with h1 | h1
      · rcases hbad.mp h1 with h2 | h2
        · exact Or.inl h2
        · exact Or.inr (Or.inl h2)
      · right
        right
        simp only [accCount_none, Nat.add_zero] at h1
        omega
    · intro h
      rcases verifyCommitTreeLoop_error_shape recs all_commits all_commits none with
        hok | ⟨msg, hmsg⟩
      · exfalso
        obtain ⟨hA, hB⟩ := hiff.mp hok
        simp only [accCount_none, Nat.add_zero] at hB
        rcases h with h2 | h2 | h2
        · exact hbad.mpr (Or.inl h2) hA
        · exact hbad.mpr (Or.inr h2) hA
        · omega
      · exact ⟨msg, by rw [hdef]; exact hmsg⟩
  · rintro ⟨hA, hB⟩
    rw [hdef, hiff]
    refine ⟨hA, ?_⟩
    simp only [accCount_none]
    omega

/-- C5 witness: a three-commit tree (initial, child, merge) is
well-formed and passes the commit-tree audit. -/
theorem C5_commit_tree_integrity_witness :
    ((∀ c ∈ ["c0", "c1", "c2"], commitRecordOk commitRecsW ["c0", "c1", "c2"] c = true) ∧
      (["c0", "c1", "c2"].countP (fun c => isParentless commitRecsW c) = 1)) ∧
    _verify_commit_tree_integrity commitRecsW ["c0", "c1", "c2"] = .ok () :=
  ⟨⟨by decide, by decide⟩,
   (C5_commit_tree_integrity commitRecsW ["c0", "c1", "c2"]).2 ⟨by decide, by decide⟩⟩

end Hangar
